import Mathlib

/-!
Verification of the query-decomposition core of the aemet-wind repository.

Calendar dates are embedded as proleptic-Gregorian ordinals (day numbers, as
in Python's `date.toordinal`, with 0001-01-01 mapped to 1), so that the
source's `date + timedelta(n)` becomes ordinal addition and `d2 - d1` becomes
ordinal subtraction.  Query span in years is embedded in ℚ: the source
computes `(end - start).days / 365` in floating point and only compares the
result against the integer limit `MAX_YEARS = 5`; for day counts in the range
of Python dates the float comparison agrees exactly with the rational one,
because the true value is never closer to 5 than 1/365 while the float
rounding error stays below 2e-12.
-/

/-- Maximum number of years a query can cover (daily_climate.py line 41). -/
def MAX_YEARS : Nat := 5

/-- Gregorian leap-year test, as in the standard calendar. -/
def isLeap (y : Nat) : Bool :=
  (y % 4 == 0 && y % 100 != 0) || (y % 400 == 0)

/-- Number of days in month `m` of year `y` (months numbered 1-12). -/
def daysInMonth (y m : Nat) : Nat :=
  if m = 2 then (if isLeap y then 29 else 28)
  else if m = 4 ∨ m = 6 ∨ m = 9 ∨ m = 11 then 30
  else 31

/-- Days in year `y` strictly before month `m`. -/
def daysBeforeMonth (y m : Nat) : Nat :=
  (List.range (m - 1)).foldl (fun acc i => acc + daysInMonth y (i + 1)) 0

/-- Proleptic-Gregorian ordinal of the date `y-m-d`, matching Python's
`date.toordinal` (0001-01-01 has ordinal 1). -/
def toOrdinal (y m d : Nat) : Nat :=
  365 * (y - 1) + (y - 1) / 4 - (y - 1) / 100 + (y - 1) / 400
    + daysBeforeMonth y m + d

/-- Embedding of the `DailyClimateQuery` dataclass (daily_climate.py lines
44-65): a station identifier and an inclusive date range, dates as ordinals. -/
structure DailyClimateQuery where
  station_id : String
  start_date : Nat
  end_date : Nat
deriving DecidableEq, Repr

/-- The `years` property (daily_climate.py line 65):
`(end_date - start_date).days / 365`, embedded in ℚ. -/
def DailyClimateQuery.years (q : DailyClimateQuery) : ℚ :=
  ((q.end_date : ℚ) - (q.start_date : ℚ)) / 365

/-- Loop body of `_time_decompose_query` (daily_climate.py lines 187-201).
The source iterates a while loop whose cursor advances by `365*MAX_YEARS + 1`
days each round until the candidate chunk end reaches the query's end date;
the loop is embedded with structural recursion on a `fuel` bound for the
number of remaining iterations.  The caller passes `e - s` as fuel, which is
always sufficient (each iteration advances the cursor by 1826 days while
consuming one unit of fuel), so the fuel-0 base case is exercised only when
the stopping condition `e <= s + 365*MAX_YEARS` already holds, and then it
agrees with the stopping branch. -/
def timeDecomposeAux (st : String) (e : Nat) : Nat → Nat → List DailyClimateQuery
  | 0, s => [⟨st, s, e⟩]
  | fuel + 1, s =>
    if e ≤ s + 365 * MAX_YEARS then [⟨st, s, e⟩]
    else ⟨st, s, s + 365 * MAX_YEARS⟩ ::
      timeDecomposeAux st e fuel (s + 365 * MAX_YEARS + 1)

/-- Embedding of `_time_decompose_query` (daily_climate.py lines 184-203):
return the list of queries whose time span fits within the API limit. -/
def _time_decompose_query (query : DailyClimateQuery) : List DailyClimateQuery :=
  if query.years > (MAX_YEARS : ℚ) then
    timeDecomposeAux query.station_id query.end_date
      (query.end_date - query.start_date) query.start_date
  else [query]

/-- The float comparison `query.years > MAX_YEARS` of the source, restated as
an exact day-count comparison on ordinals. -/
theorem years_gt_iff (q : DailyClimateQuery) :
    q.years > (MAX_YEARS : ℚ) ↔ q.start_date + 365 * MAX_YEARS < q.end_date := by
  unfold DailyClimateQuery.years MAX_YEARS
  rw [gt_iff_lt, lt_div_iff₀ (by norm_num : (0 : ℚ) < 365), lt_sub_iff_add_lt]
  push_cast
  constructor
  · intro h
    have h' : (q.start_date : ℚ) + 365 * 5 < (q.end_date : ℚ) := by linarith
    exact_mod_cast h'
  · intro h
    have h' : (q.start_date : ℚ) + 365 * 5 < (q.end_date : ℚ) := by exact_mod_cast h
    linarith

/-- The complementary comparison: a span of at most `365 * MAX_YEARS` days is
exactly a `years` value of at most `MAX_YEARS`. -/
theorem years_le_iff (q : DailyClimateQuery) :
    q.years ≤ (MAX_YEARS : ℚ) ↔ q.end_date ≤ q.start_date + 365 * MAX_YEARS := by
  rw [← not_lt, ← Nat.not_lt]
  exact not_congr (years_gt_iff q)

/-- Partition shape of a chunk list over the inclusive ordinal range
`[s, e]`: the list is nonempty, the first chunk starts at `s`, the last chunk
ends at `e`, every chunk is a valid (nonempty) range, and each chunk starts
exactly one day after its predecessor ends. -/
def partitions (s e : Nat) (l : List DailyClimateQuery) : Prop :=
  l ≠ [] ∧
  (∀ h : l ≠ [], (l.head h).start_date = s ∧ (l.getLast h).end_date = e) ∧
  (∀ c ∈ l, c.start_date ≤ c.end_date) ∧
  List.Chain' (fun a b => b.start_date = a.end_date + 1) l

theorem partitions_single (st : String) (s e : Nat) (h : s ≤ e) :
    partitions s e [⟨st, s, e⟩] := by
  refine ⟨by simp, fun _ => ⟨rfl, rfl⟩, ?_, by simp⟩
  intro c hc
  simp only [List.mem_singleton] at hc
  subst hc
  exact h

theorem partitions_cons (c : DailyClimateQuery) (l : List DailyClimateQuery)
    (e : Nat) (hc : c.start_date ≤ c.end_date)
    (hp : partitions (c.end_date + 1) e l) :
    partitions c.start_date e (c :: l) := by
  obtain ⟨hne, hhl, hvalid, hchain⟩ := hp
  refine ⟨by simp, fun h => ⟨rfl, ?_⟩, ?_, ?_⟩
  · rw [List.getLast_cons hne]
    exact (hhl hne).2
  · intro x hx
    rcases List.mem_cons.mp hx with h | h
    · exact h ▸ hc
    · exact hvalid x h
  · rw [List.chain'_cons']
    refine ⟨?_, hchain⟩
    intro b hb
    rw [List.head?_eq_head hne] at hb
    simp only [Option.mem_def, Option.some.injEq] at hb
    rw [← hb]
    exact (hhl hne).1

theorem partitions_cons_elim (c : DailyClimateQuery) (l : List DailyClimateQuery)
    (s e : Nat) (hp : partitions s e (c :: l)) :
    c.start_date = s ∧ c.start_date ≤ c.end_date ∧
    (l = [] → c.end_date = e) ∧ (l ≠ [] → partitions (c.end_date + 1) e l) := by
  obtain ⟨_, hhl, hvalid, hchain⟩ := hp
  refine ⟨(hhl (by simp)).1, hvalid c (List.mem_cons_self c l), ?_, ?_⟩
  · intro h
    subst h
    exact (hhl (by simp)).2
  · intro hne
    rw [List.chain'_cons'] at hchain
    obtain ⟨hrel, hchain'⟩ := hchain
    refine ⟨hne, fun h => ⟨?_, ?_⟩, ?_, hchain'⟩
    · exact hrel (l.head hne) (List.head?_eq_head hne)
    · have hlast := (hhl (by simp)).2
      rw [List.getLast_cons hne] at hlast
      exact hlast
    · intro x hx
      exact hvalid x (List.mem_cons_of_mem c hx)

theorem partitions_start_le (l : List DailyClimateQuery) :
    ∀ s e, partitions s e l → ∀ c ∈ l, s ≤ c.start_date := by
  induction l with
  | nil =>
    intro s e _ c hc
    simp at hc
  | cons a l ih =>
    intro s e hp c hc
    obtain ⟨ha, hav, _, hrest⟩ := partitions_cons_elim a l s e hp
    rcases List.mem_cons.mp hc with rfl | hc'
    · omega
    · have hne : l ≠ [] := by
        rintro rfl
        simp at hc'
      have := ih (a.end_date + 1) e (hrest hne) c hc'
      omega

theorem partitions_cover (l : List DailyClimateQuery) :
    ∀ s e, partitions s e l → ∀ d, s ≤ d → d ≤ e →
      ∃! c, c ∈ l ∧ c.start_date ≤ d ∧ d ≤ c.end_date := by
  induction l with
  | nil =>
    intro s e hp
    exact absurd rfl hp.1
  | cons a l ih =>
    intro s e hp d hd1 hd2
    obtain ⟨ha, hav, hnil, hrest⟩ := partitions_cons_elim a l s e hp
    by_cases hne : l = []
    · subst hne
      have he : a.end_date = e := hnil rfl
      refine ⟨a, ⟨List.mem_singleton_self a, by omega, by omega⟩, ?_⟩
      rintro y ⟨hy, _, _⟩
      simpa using hy
    · have hp' := hrest hne
      by_cases hdc : d ≤ a.end_date
      · refine ⟨a, ⟨List.mem_cons_self a l, by omega, hdc⟩, ?_⟩
        rintro y ⟨hy, hy1, hy2⟩
        rcases List.mem_cons.mp hy with rfl | hy'
        · rfl
        · have := partitions_start_le l (a.end_date + 1) e hp' y hy'
          omega
      · have hd1' : a.end_date + 1 ≤ d := by omega
        obtain ⟨c, ⟨hcmem, hc1, hc2⟩, huniq⟩ := ih (a.end_date + 1) e hp' d hd1' hd2
        refine ⟨c, ⟨List.mem_cons_of_mem a hcmem, hc1, hc2⟩, ?_⟩
        rintro y ⟨hy, hy1, hy2⟩
        rcases List.mem_cons.mp hy with rfl | hy'
        · exact absurd hy2 hdc
        · exact huniq y ⟨hy', hy1, hy2⟩

theorem partitions_ascending (l : List DailyClimateQuery) :
    ∀ s e, partitions s e l →
      List.Chain' (fun a b => a.start_date < b.start_date) l := by
  induction l with
  | nil =>
    intro s e _
    simp
  | cons a l ih =>
    intro s e hp
    obtain ⟨ha, hav, _, hrest⟩ := partitions_cons_elim a l s e hp
    rw [List.chain'_cons']
    by_cases hne : l = []
    · subst hne
      simp
    · have hp' := hrest hne
      refine ⟨?_, ih _ _ hp'⟩
      intro b hb
      have hh := (hp'.2.1 hne).1
      rw [List.head?_eq_head hne] at hb
      simp only [Option.mem_def, Option.some.injEq] at hb
      rw [← hb]
      omega

theorem timeDecomposeAux_partitions (st : String) (e : Nat) :
    ∀ fuel s, s ≤ e → e ≤ s + 365 * MAX_YEARS + (365 * MAX_YEARS + 1) * fuel →
      partitions s e (timeDecomposeAux st e fuel s) := by
  intro fuel
  induction fuel with
  | zero =>
    intro s hs _
    exact partitions_single st s e hs
  | succ n ih =>
    intro s hs hbound
    simp only [timeDecomposeAux]
    by_cases hc : e ≤ s + 365 * MAX_YEARS
    · rw [if_pos hc]
      exact partitions_single st s e hs
    · rw [if_neg hc]
      have hM : MAX_YEARS = 5 := rfl
      rw [hM] at hc hbound
      have hrec := ih (s + 365 * MAX_YEARS + 1) (by rw [hM]; omega)
        (by rw [hM]; omega)
      exact partitions_cons ⟨st, s, s + 365 * MAX_YEARS⟩ _ e
        (Nat.le_add_right s (365 * MAX_YEARS)) hrec

theorem timeDecomposeAux_within (st : String) (e : Nat) :
    ∀ fuel s, e ≤ s + 365 * MAX_YEARS + (365 * MAX_YEARS + 1) * fuel →
      ∀ c ∈ timeDecomposeAux st e fuel s,
        c.station_id = st ∧ c.end_date ≤ c.start_date + 365 * MAX_YEARS := by
  intro fuel
  induction fuel with
  | zero =>
    intro s hbound c hc
    simp only [timeDecomposeAux, List.mem_singleton] at hc
    subst hc
    constructor
    · rfl
    · simp only [mul_zero, add_zero] at hbound
      exact hbound
  | succ n ih =>
    intro s hbound c hc
    simp only [timeDecomposeAux] at hc
    by_cases hcond : e ≤ s + 365 * MAX_YEARS
    · rw [if_pos hcond] at hc
      simp only [List.mem_singleton] at hc
      subst hc
      exact ⟨rfl, hcond⟩
    · rw [if_neg hcond] at hc
      rcases List.mem_cons.mp hc with rfl | hc'
      · exact ⟨rfl, Nat.le_refl _⟩
      · have hM : MAX_YEARS = 5 := rfl
        refine ih (s + 365 * MAX_YEARS + 1) ?_ c hc'
        rw [hM] at hbound ⊢
        omega

/-- The concrete query of the repository's own test
(test_daily_climate.py lines 14-24). -/
def testQuery : DailyClimateQuery :=
  ⟨"6297", toOrdinal 1990 1 1, toOrdinal 2009 10 5⟩

/-- C1: for every DateRangeQuery with start_date <= end_date and the fixed
limit MAX_YEARS = 5, the chunks returned by `_time_decompose_query` partition
the original range exactly: the first chunk starts at the query's start date,
the last chunk ends at its end date, each subsequent chunk starts exactly one
day after the previous chunk ends (this is the `partitions` predicate), every
date of the original range lies in exactly one chunk, and the chunks are in
strictly ascending chronological order. -/
theorem time_decompose_partition (q : DailyClimateQuery)
    (h : q.start_date ≤ q.end_date) :
    partitions q.start_date q.end_date (_time_decompose_query q) ∧
    (∀ d : Nat, q.start_date ≤ d → d ≤ q.end_date →
      ∃! c, c ∈ _time_decompose_query q ∧ c.start_date ≤ d ∧ d ≤ c.end_date) ∧
    List.Chain' (fun a b => a.start_date < b.start_date)
      (_time_decompose_query q) := by
  have hp : partitions q.start_date q.end_date (_time_decompose_query q) := by
    unfold _time_decompose_query
    by_cases hy : q.years > (MAX_YEARS : ℚ)
    · rw [if_pos hy]
      have hspan := (years_gt_iff q).mp hy
      have hM : MAX_YEARS = 5 := rfl
      apply timeDecomposeAux_partitions q.station_id q.end_date _ _ h
      rw [hM] at hspan ⊢
      omega
    · rw [if_neg hy]
      exact partitions_single q.station_id q.start_date q.end_date h
  exact ⟨hp, fun d hd1 hd2 => partitions_cover _ _ _ hp d hd1 hd2,
    partitions_ascending _ _ _ hp⟩

/-- Witness for C1 at the repository's own test query. -/
theorem time_decompose_partition_witness :
    testQuery.start_date ≤ testQuery.end_date ∧
    (partitions testQuery.start_date testQuery.end_date
        (_time_decompose_query testQuery) ∧
      (∀ d : Nat, testQuery.start_date ≤ d → d ≤ testQuery.end_date →
        ∃! c, c ∈ _time_decompose_query testQuery ∧
          c.start_date ≤ d ∧ d ≤ c.end_date) ∧
      List.Chain' (fun a b => a.start_date < b.start_date)
        (_time_decompose_query testQuery)) :=
  ⟨by decide, time_decompose_partition testQuery (by decide)⟩

/-- C4: a query whose span in years is at most MAX_YEARS is returned
unchanged as a single-element list. -/
theorem time_decompose_identity (q : DailyClimateQuery)
    (h : q.years ≤ (MAX_YEARS : ℚ)) :
    _time_decompose_query q = [q] := by
  unfold _time_decompose_query
  rw [if_neg (not_lt.mpr h)]

/-- A one-month query, as in the wind.py docstring example. -/
def smallQuery : DailyClimateQuery :=
  ⟨"6293X", toOrdinal 2019 10 1, toOrdinal 2019 11 1⟩

/-- Witness for C4 at a one-month query. -/
theorem time_decompose_identity_witness :
    smallQuery.years ≤ (MAX_YEARS : ℚ) ∧
    _time_decompose_query smallQuery = [smallQuery] :=
  ⟨(years_le_iff smallQuery).mpr (by decide),
   time_decompose_identity smallQuery ((years_le_iff smallQuery).mpr (by decide))⟩

/-- C5: the concrete decomposition of station 6297 over 1990-01-01 to
2009-10-05 yields exactly the four chunks of the repository's test; the last
two conjuncts record that the third chunk ends at its start plus
365*MAX_YEARS days, which is 2004-12-30, one day before 2004-12-31 (one day
short of five calendar years, because a leap day falls inside the chunk), and
that the fourth chunk starts the very next day. -/
theorem time_decompose_concrete :
    _time_decompose_query ⟨"6297", toOrdinal 1990 1 1, toOrdinal 2009 10 5⟩ =
      [⟨"6297", toOrdinal 1990 1 1, toOrdinal 1994 12 31⟩,
       ⟨"6297", toOrdinal 1995 1 1, toOrdinal 1999 12 31⟩,
       ⟨"6297", toOrdinal 2000 1 1, toOrdinal 2004 12 30⟩,
       ⟨"6297", toOrdinal 2004 12 31, toOrdinal 2009 10 5⟩] ∧
    toOrdinal 2000 1 1 + 365 * MAX_YEARS = toOrdinal 2004 12 30 ∧
    toOrdinal 2004 12 30 + 1 = toOrdinal 2004 12 31 := by
  refine ⟨?_, by decide, by decide⟩
  unfold _time_decompose_query
  rw [if_pos ((years_gt_iff _).mpr (by decide))]
  decide

/-- Raw daily-climate record: a mapping from field name to string value
(`DailyClimateData = Dict[str, str]`, daily_climate.py line 67), embedded as
an association list. -/
abbrev DailyClimateData := List (String × String)

/-- Embedding of the `AemetHttpError` exception (web.py lines 22-34): it
carries the upstream `descripcion` and `estado` fields. -/
structure AemetHttpError where
  descripcion : String
  estado : Int
deriving DecidableEq, Repr

/-- Errors `run_daily_climate_query` can raise: the ValueError guarding the
span limit (daily_climate.py lines 81-85), or a re-raised `AemetHttpError`
(daily_climate.py line 93). -/
inductive ClimateError where
  | spanTooLarge (q : DailyClimateQuery)
  | httpError (e : AemetHttpError)
deriving DecidableEq, Repr

/-- Sentinel description with which the AEMET API reports an empty result
set (daily_climate.py line 89). -/
def NO_DATA_MSG : String := "No hay datos que satisfagan esos criterios"

/-- Embedding of `run_daily_climate_query` (daily_climate.py lines 72-94).
The combination of `get_api_response` on the endpoint URL followed by the
payload fetch `requests.get(response.data_url).json()` is modelled by the
injected `upstream` oracle, which either raises `AemetHttpError` (as
`get_api_response` does when the envelope's `estado` is not 200, web.py
lines 49-50) or produces the record list of the data payload.  The span
guard, the catch of the no-data description, and the re-raise of any other
error follow the source line by line. -/
def run_daily_climate_query
    (upstream : DailyClimateQuery → Except AemetHttpError (List DailyClimateData))
    (query : DailyClimateQuery) : Except ClimateError (List DailyClimateData) :=
  if query.years > (MAX_YEARS : ℚ) then
    Except.error (ClimateError.spanTooLarge query)
  else
    match upstream query with
    | Except.error e =>
      if e.descripcion = NO_DATA_MSG then Except.ok []
      else Except.error (ClimateError.httpError e)
    | Except.ok data => Except.ok data

theorem run_no_span_of_years_le
    (u : DailyClimateQuery → Except AemetHttpError (List DailyClimateData))
    (c : DailyClimateQuery) (h : c.years ≤ (MAX_YEARS : ℚ))
    (q' : DailyClimateQuery) :
    run_daily_climate_query u c ≠ Except.error (ClimateError.spanTooLarge q') := by
  unfold run_daily_climate_query
  rw [if_neg (not_lt.mpr h)]
  cases hu : u c with
  | ok r => simp
  | error e =>
    by_cases hd : e.descripcion = NO_DATA_MSG
    · simp only [if_pos hd]
      simp
    · simp only [if_neg hd]
      simp

/-- C6: every chunk produced by the decomposer carries the station of the
input query, spans at most `365 * MAX_YEARS` days (its `years` value is at
most MAX_YEARS), and therefore passes the span guard of
`run_daily_climate_query`: no fetch behaviour can make the guard raise on a
decomposed chunk. -/
theorem chunks_within_span_limit (q : DailyClimateQuery)
    (h : q.start_date ≤ q.end_date) :
    ∀ c ∈ _time_decompose_query q,
      c.station_id = q.station_id ∧ c.years ≤ (MAX_YEARS : ℚ) ∧
      ∀ u q', run_daily_climate_query u c ≠
        Except.error (ClimateError.spanTooLarge q') := by
  intro c hc
  have hmain : c.station_id = q.station_id ∧
      c.end_date ≤ c.start_date + 365 * MAX_YEARS := by
    unfold _time_decompose_query at hc
    by_cases hy : q.years > (MAX_YEARS : ℚ)
    · rw [if_pos hy] at hc
      have hspan := (years_gt_iff q).mp hy
      have hM : MAX_YEARS = 5 := rfl
      refine timeDecomposeAux_within q.station_id q.end_date _ _ ?_ c hc
      rw [hM] at hspan ⊢
      omega
    · rw [if_neg hy] at hc
      simp only [List.mem_singleton] at hc
      subst hc
      exact ⟨rfl, (years_le_iff c).mp (not_lt.mp hy)⟩
  have hyle : c.years ≤ (MAX_YEARS : ℚ) := (years_le_iff c).mpr hmain.2
  exact ⟨hmain.1, hyle, fun u q' => run_no_span_of_years_le u c hyle q'⟩

/-- Witness for C6 at the repository's own test query. -/
theorem chunks_within_span_limit_witness :
    testQuery.start_date ≤ testQuery.end_date ∧
    ∀ c ∈ _time_decompose_query testQuery,
      c.station_id = testQuery.station_id ∧ c.years ≤ (MAX_YEARS : ℚ) ∧
      ∀ u q', run_daily_climate_query u c ≠
        Except.error (ClimateError.spanTooLarge q') :=
  ⟨by decide, chunks_within_span_limit testQuery (by decide)⟩

/-- C7: `run_daily_climate_query` raises the span-limit error exactly when
the query's span in years exceeds MAX_YEARS; when it raises, the result does
not depend on the injected upstream at all (no upstream call is made); a
query whose span equals MAX_YEARS exactly is accepted. -/
theorem run_query_span_guard
    (u : DailyClimateQuery → Except AemetHttpError (List DailyClimateData))
    (q : DailyClimateQuery) :
    ((run_daily_climate_query u q =
        Except.error (ClimateError.spanTooLarge q)) ↔
      q.years > (MAX_YEARS : ℚ)) ∧
    (q.years > (MAX_YEARS : ℚ) →
      ∀ u', run_daily_climate_query u q = run_daily_climate_query u' q) ∧
    (q.years = (MAX_YEARS : ℚ) →
      run_daily_climate_query u q ≠
        Except.error (ClimateError.spanTooLarge q)) := by
  refine ⟨⟨?_, ?_⟩, ?_, ?_⟩
  · intro h
    by_contra hy
    exact run_no_span_of_years_le u q (not_lt.mp hy) q h
  · intro hy
    unfold run_daily_climate_query
    rw [if_pos hy]
  · intro hy u'
    unfold run_daily_climate_query
    rw [if_pos hy, if_pos hy]
  · intro heq
    exact run_no_span_of_years_le u q (le_of_eq heq) q

/-- Upstream oracle that always succeeds with an empty record list. -/
def emptyUpstream :
    DailyClimateQuery → Except AemetHttpError (List DailyClimateData) :=
  fun _ => Except.ok []

/-- Witness for C7: the 19-year test query is rejected by the guard. -/
theorem run_query_span_guard_witness :
    run_daily_climate_query emptyUpstream testQuery =
      Except.error (ClimateError.spanTooLarge testQuery) :=
  (run_query_span_guard emptyUpstream testQuery).1.mpr
    ((years_gt_iff testQuery).mpr (by decide))

/-- Evaluation of the list comprehension
`[get_data_func(q, api_key) for q in time_decomposed_queries]`
(daily_climate.py line 180).  Python evaluates the comprehension eagerly
when `get_daily_climate_data` is called: the fetch runs once per sub-query,
in order, and an exception raised by a fetch propagates immediately.  The
first component records the trace of sub-queries whose fetch was invoked
during the evaluation; the second is the list of per-sub-query record lists,
or the propagated error. -/
def evalSubqueries
    (f : DailyClimateQuery → Except ClimateError (List DailyClimateData)) :
    List DailyClimateQuery →
      List DailyClimateQuery × Except ClimateError (List (List DailyClimateData))
  | [] => ([], Except.ok [])
  | q :: qs =>
    match f q with
    | Except.error e => ([q], Except.error e)
    | Except.ok r =>
      let p := evalSubqueries f qs
      (q :: p.1, p.2.map (fun rs => r :: rs))

/-- `itertools.chain` applied to a list of lists: flat concatenation. -/
def chain : List (List α) → List α
  | [] => []
  | l :: ls => l ++ chain ls

/-- Embedding of `get_daily_climate_data` (daily_climate.py lines 129-181,
body at lines 176-181): decompose the query, evaluate the comprehension of
per-sub-query fetches, and flatten the resulting lists with `chain`.  The
model returns, besides the combined record sequence (or the propagated fetch
error), the trace of sub-queries whose fetch was invoked during the call
itself: in the source all those invocations happen inside the eager list
comprehension, before the returned `chain` iterator has yielded a single
record.  The source's `api_key` argument is absorbed into the injected fetch
function, and its `get_data_func=None` default (replaced by
`run_daily_climate_query`) is left to the caller. -/
def get_daily_climate_data
    (get_data_func : DailyClimateQuery → Except ClimateError (List DailyClimateData))
    (query : DailyClimateQuery) :
    List DailyClimateQuery × Except ClimateError (List DailyClimateData) :=
  let p := evalSubqueries get_data_func (_time_decompose_query query)
  (p.1, p.2.map chain)

theorem evalSubqueries_pure (g : DailyClimateQuery → List DailyClimateData) :
    ∀ l, evalSubqueries (fun q => Except.ok (g q)) l = (l, Except.ok (l.map g)) := by
  intro l
  induction l with
  | nil => rfl
  | cons a l ih => simp [evalSubqueries, ih, Except.map]

theorem chain_eq_flatten (ls : List (List α)) : chain ls = ls.flatten := by
  induction ls with
  | nil => rfl
  | cons l ls ih => simp [chain, ih]

/-- C8: when the upstream fails for a sub-query with the exact no-data
sentinel description, `run_daily_climate_query` returns an empty list
instead of raising, and a collection of sub-queries starting with it goes on
to evaluate the remaining sub-queries, the no-data one contributing zero
records; with any other description the same `AemetHttpError`, fields
intact, propagates, and the collection stops at that sub-query. -/
theorem no_data_and_error_propagation
    (u : DailyClimateQuery → Except AemetHttpError (List DailyClimateData))
    (q : DailyClimateQuery) (e : AemetHttpError)
    (hspan : ¬ q.years > (MAX_YEARS : ℚ)) (hu : u q = Except.error e) :
    (e.descripcion = NO_DATA_MSG →
      run_daily_climate_query u q = Except.ok [] ∧
      ∀ qs, evalSubqueries (run_daily_climate_query u) (q :: qs) =
        (q :: (evalSubqueries (run_daily_climate_query u) qs).1,
         ((evalSubqueries (run_daily_climate_query u) qs).2).map
           (fun rs => [] :: rs))) ∧
    (e.descripcion ≠ NO_DATA_MSG →
      run_daily_climate_query u q = Except.error (ClimateError.httpError e) ∧
      ∀ qs, evalSubqueries (run_daily_climate_query u) (q :: qs) =
        ([q], Except.error (ClimateError.httpError e))) := by
  constructor
  · intro hd
    have hrun : run_daily_climate_query u q = Except.ok [] := by
      unfold run_daily_climate_query
      rw [if_neg hspan, hu]
      simp only [if_pos hd]
    exact ⟨hrun, fun qs => by simp only [evalSubqueries, hrun]⟩
  · intro hd
    have hrun : run_daily_climate_query u q =
        Except.error (ClimateError.httpError e) := by
      unfold run_daily_climate_query
      rw [if_neg hspan, hu]
      simp only [if_neg hd]
    exact ⟨hrun, fun qs => by simp only [evalSubqueries, hrun]⟩

/-- The no-data error value, and an upstream oracle that always reports it. -/
def noDataError : AemetHttpError := ⟨NO_DATA_MSG, 404⟩

def noDataUpstream :
    DailyClimateQuery → Except AemetHttpError (List DailyClimateData) :=
  fun _ => Except.error noDataError

/-- Witness for C8 at a one-month query and the no-data upstream. -/
theorem no_data_and_error_propagation_witness :
    (¬ smallQuery.years > (MAX_YEARS : ℚ)) ∧
    noDataUpstream smallQuery = Except.error noDataError ∧
    ((noDataError.descripcion = NO_DATA_MSG →
      run_daily_climate_query noDataUpstream smallQuery = Except.ok [] ∧
      ∀ qs, evalSubqueries (run_daily_climate_query noDataUpstream) (smallQuery :: qs) =
        (smallQuery :: (evalSubqueries (run_daily_climate_query noDataUpstream) qs).1,
         ((evalSubqueries (run_daily_climate_query noDataUpstream) qs).2).map
           (fun rs => [] :: rs))) ∧
    (noDataError.descripcion ≠ NO_DATA_MSG →
      run_daily_climate_query noDataUpstream smallQuery =
        Except.error (ClimateError.httpError noDataError) ∧
      ∀ qs, evalSubqueries (run_daily_climate_query noDataUpstream) (smallQuery :: qs) =
        ([smallQuery], Except.error (ClimateError.httpError noDataError)))) :=
  ⟨not_lt.mpr ((years_le_iff smallQuery).mpr (by decide)), rfl,
   no_data_and_error_propagation noDataUpstream smallQuery noDataError
     (not_lt.mpr ((years_le_iff smallQuery).mpr (by decide))) rfl⟩

/-- C3: with an injected fetch that returns a fixed record list per
sub-query, the combined sequence equals the concatenation of the
per-sub-query results in the chronological order of the decomposed
sub-queries, and for every `n` the blocks of the first `n` sub-queries form
an initial segment of the combined sequence (each sub-query's records are
kept together, in fetch order, before all later sub-queries' records). -/
theorem executor_concatenation (g : DailyClimateQuery → List DailyClimateData)
    (q : DailyClimateQuery) :
    (get_daily_climate_data (fun q' => Except.ok (g q')) q).2 =
      Except.ok (((_time_decompose_query q).map g).flatten) ∧
    ∀ n, ∃ rest,
      ((_time_decompose_query q).map g).flatten =
        (((_time_decompose_query q).take n).map g).flatten ++ rest := by
  constructor
  · unfold get_daily_climate_data
    rw [evalSubqueries_pure]
    simp [chain_eq_flatten, Except.map]
  · intro n
    refine ⟨(((_time_decompose_query q).drop n).map g).flatten, ?_⟩
    rw [← List.flatten_append, ← List.map_append, List.take_append_drop]

/-- Fetch oracle that returns no records for any sub-query. -/
def pureEmptyFetch :
    DailyClimateQuery → Except ClimateError (List DailyClimateData) :=
  fun _ => Except.ok []

/-- Counterexample to C2: on the repository's own 19-year test query, all
four decomposed sub-queries' fetches are invoked during the call to
`get_daily_climate_data` itself — the fetch-invocation trace of the call
already equals the full decomposed list before the consumer has read a
single record, so reading only the first sub-query's records does not
restrict fetching to the first sub-query. -/
theorem executor_not_lazy :
    (get_daily_climate_data pureEmptyFetch testQuery).1 =
      _time_decompose_query testQuery ∧
    ((get_daily_climate_data pureEmptyFetch testQuery).1).length = 4 ∧
    ¬ ((get_daily_climate_data pureEmptyFetch testQuery).1).length ≤ 1 := by
  have h : _time_decompose_query testQuery =
      [⟨"6297", toOrdinal 1990 1 1, toOrdinal 1994 12 31⟩,
       ⟨"6297", toOrdinal 1995 1 1, toOrdinal 1999 12 31⟩,
       ⟨"6297", toOrdinal 2000 1 1, toOrdinal 2004 12 30⟩,
       ⟨"6297", toOrdinal 2004 12 31, toOrdinal 2009 10 5⟩] := by
    unfold _time_decompose_query
    rw [if_pos ((years_gt_iff _).mpr (by decide))]
    decide
  unfold get_daily_climate_data
  rw [h]
  decide

/-- C2 amended: all sub-query fetches execute eagerly, in chronological
order, during the call to `get_daily_climate_data` itself — the trace of
fetch invocations performed by the call is the full decomposed sub-query
list whatever the consumer later reads; only the flattening of the already
fetched per-sub-query record lists into one sequence is lazy. -/
theorem executor_eager_calls (g : DailyClimateQuery → List DailyClimateData)
    (q : DailyClimateQuery) :
    (get_daily_climate_data (fun q' => Except.ok (g q')) q).1 =
      _time_decompose_query q := by
  unfold get_daily_climate_data
  rw [evalSubqueries_pure]

/-- Embedding of the `DailyWindData` dataclass (wind.py lines 35-60): a daily
wind observation with optional measurement fields.  Wind speeds are embedded
in ℚ (the source parses decimal strings with `float`; the decimal values of
the data are represented exactly), the date as an ordinal. -/
structure DailyWindData where
  station_id : String
  date : Nat
  ave_wind_speed : Option ℚ
  max_gust : Option ℚ
  direction : Option Int
deriving DecidableEq, Repr

/-- Errors that `get_daily_wind_speed_data` can raise: a propagated fetch
error from `get_daily_climate_data`, the KeyError from `record['fecha']`
on a record with no date, or the ValueError from `strptime`, `float` or
`int` on an unparseable value (the offending value is carried along). -/
inductive WindError where
  | climate (e : ClimateError)
  | keyError (field : String)
  | valueError (value : String)
deriving DecidableEq, Repr

/-- Value of a decimal digit character, if it is one. -/
def digitVal? (c : Char) : Option Nat :=
  if '0' ≤ c ∧ c ≤ '9' then some (c.toNat - '0'.toNat) else none

def parseNatDigitsAux : List Char → Nat → Option Nat
  | [], acc => some acc
  | c :: cs, acc =>
    match digitVal? c with
    | some d => parseNatDigitsAux cs (acc * 10 + d)
    | none => none

/-- Parse a nonempty all-digit character list as a natural number. -/
def parseNatDigits? : List Char → Option Nat
  | [] => none
  | cs => parseNatDigitsAux cs 0

/-- Split a character list at every occurrence of the separator `c`. -/
def splitCharAux (c : Char) : List Char → List Char → List (List Char)
  | [], acc => [acc.reverse]
  | x :: xs, acc =>
    if x = c then acc.reverse :: splitCharAux c xs []
    else splitCharAux c xs (x :: acc)

def splitChar (c : Char) (cs : List Char) : List (List Char) :=
  splitCharAux c cs []

/-- Model of Python's `value.replace(',', '.')` (wind.py line 166): replace
every comma with a period. -/
def commaToPeriod (s : String) : String :=
  String.mk (s.data.map (fun c => if c = ',' then '.' else c))

/-- Model of Python's `float` on the decimal-literal fragment that the AEMET
measurement fields use after comma conversion: an optional minus sign, then
digits with at most one interior period.  The value is represented exactly
in ℚ. -/
def parseFloat? (s : String) : Option ℚ :=
  let body : List Char → Option ℚ := fun cs =>
    match splitChar '.' cs with
    | [ip] => (parseNatDigits? ip).map (fun n => (n : ℚ))
    | [ip, fp] =>
      match parseNatDigits? ip, parseNatDigits? fp with
      | some i, some f => some ((i : ℚ) + (f : ℚ) / (10 : ℚ) ^ fp.length)
      | _, _ => none
    | _ => none
  match s.data with
  | '-' :: rest => (body rest).map (fun x => -x)
  | cs => body cs

/-- Model of Python's `int` on the decimal-integer fragment the `dir` field
uses: an optional minus sign followed by digits. -/
def parseInt? (s : String) : Option Int :=
  match s.data with
  | '-' :: rest => (parseNatDigits? rest).map (fun n => -(n : Int))
  | cs => (parseNatDigits? cs).map (fun n => (n : Int))

/-- Model of `datetime.strptime(_, '%Y-%m-%d').date()` (wind.py line 145) on
the `fecha` field: three dash-separated digit groups forming a valid
calendar date, returned as an ordinal; anything else is unparseable. -/
def parseDate? (s : String) : Option Nat :=
  match splitChar '-' s.data with
  | [ys, ms, ds] =>
    match parseNatDigits? ys, parseNatDigits? ms, parseNatDigits? ds with
    | some y, some m, some d =>
      if 1 ≤ y ∧ 1 ≤ m ∧ m ≤ 12 ∧ 1 ≤ d ∧ d ≤ daysInMonth y m then
        some (toOrdinal y m d)
      else none
    | _, _, _ => none
  | _ => none

/-- Embedding of `_process_wind_speed_field` (wind.py lines 154-166): a
missing key is caught and mapped to `None`; a present value has commas
replaced by periods and is parsed with `float`, a parse failure raising
ValueError. -/
def _process_wind_speed_field (field_name : String)
    (record : DailyClimateData) : Except WindError (Option ℚ) :=
  match record.lookup field_name with
  | none => Except.ok none
  | some v =>
    match parseFloat? (commaToPeriod v) with
    | some x => Except.ok (some x)
    | none => Except.error (WindError.valueError v)

/-- Embedding of `_process_wind_direction_field` (wind.py lines 169-181):
as above but with `int` and no comma handling. -/
def _process_wind_direction_field (field_name : String)
    (record : DailyClimateData) : Except WindError (Option Int) :=
  match record.lookup field_name with
  | none => Except.ok none
  | some v =>
    match parseInt? v with
    | some x => Except.ok (some x)
    | none => Except.error (WindError.valueError v)

/-- One step of the list comprehension in `get_daily_wind_speed_data`
(wind.py lines 142-151): build a `DailyWindData` from a raw record.  The
constructor arguments are evaluated in source order: the required `fecha`
lookup (uncaught KeyError) and `strptime` parse first, then the three
optional measurement fields. -/
def mapRecord (sid : String) (record : DailyClimateData) :
    Except WindError DailyWindData :=
  match record.lookup "fecha" with
  | none => Except.error (WindError.keyError "fecha")
  | some fv =>
    match parseDate? fv with
    | none => Except.error (WindError.valueError fv)
    | some d =>
      match _process_wind_speed_field "velmedia" record with
      | Except.error e => Except.error e
      | Except.ok av =>
        match _process_wind_speed_field "racha" record with
        | Except.error e => Except.error e
        | Except.ok mg =>
          match _process_wind_direction_field "dir" record with
          | Except.error e => Except.error e
          | Except.ok dv => Except.ok ⟨sid, d, av, mg, dv⟩

/-- The list comprehension itself: records are mapped eagerly, in order, and
the first raised error aborts the whole list. -/
def mapRecords (sid : String) : List DailyClimateData →
    Except WindError (List DailyWindData)
  | [] => Except.ok []
  | r :: rs =>
    match mapRecord sid r with
    | Except.error e => Except.error e
    | Except.ok w =>
      match mapRecords sid rs with
      | Except.error e => Except.error e
      | Except.ok ws => Except.ok (w :: ws)

/-- Embedding of `get_daily_wind_speed_data` (wind.py lines 118-151): fetch
the combined climate records via `get_daily_climate_data` (a fetch error
propagates) and map every record to a `DailyWindData`. -/
def get_daily_wind_speed_data
    (get_data_func : DailyClimateQuery → Except ClimateError (List DailyClimateData))
    (query : DailyClimateQuery) : Except WindError (List DailyWindData) :=
  match (get_daily_climate_data get_data_func query).2 with
  | Except.error e => Except.error (WindError.climate e)
  | Except.ok records => mapRecords query.station_id records

/-- The raw record of the spec's field-mapping round-trip example. -/
def windRecord : DailyClimateData :=
  [("fecha", "2019-10-01"), ("velmedia", "3,6"), ("racha", "13,3"), ("dir", "27")]

/-- C9: the concrete record maps, for any station, to the observation with
date 2019-10-01, average wind speed 3.6, maximum gust 13.3 and direction 27;
a record missing `velmedia` (resp. `racha`, `dir`) yields `none` for the
corresponding field without error; and for a present `velmedia` value the
commas are replaced by periods before the float parse. -/
theorem field_mapper_round_trip :
    (∀ sid : String, mapRecord sid windRecord =
      Except.ok ⟨sid, toOrdinal 2019 10 1, some 3.6, some 13.3, some 27⟩) ∧
    (∀ r : DailyClimateData, r.lookup "velmedia" = none →
      _process_wind_speed_field "velmedia" r = Except.ok none) ∧
    (∀ r : DailyClimateData, r.lookup "racha" = none →
      _process_wind_speed_field "racha" r = Except.ok none) ∧
    (∀ r : DailyClimateData, r.lookup "dir" = none →
      _process_wind_direction_field "dir" r = Except.ok none) ∧
    (∀ (r : DailyClimateData) (v : String), r.lookup "velmedia" = some v →
      _process_wind_speed_field "velmedia" r =
        match parseFloat? (commaToPeriod v) with
        | some x => Except.ok (some x)
        | none => Except.error (WindError.valueError v)) := by
  refine ⟨?_, ?_, ?_, ?_, ?_⟩
  · intro sid
    simp +decide [mapRecord, windRecord, _process_wind_speed_field,
      _process_wind_direction_field, parseDate?, parseFloat?, parseInt?,
      commaToPeriod, splitChar, splitCharAux, parseNatDigits?,
      parseNatDigitsAux, digitVal?, List.lookup]
    norm_num
  · intro r h
    unfold _process_wind_speed_field
    rw [h]
  · intro r h
    unfold _process_wind_speed_field
    rw [h]
  · intro r h
    unfold _process_wind_direction_field
    rw [h]
  · intro r v h
    unfold _process_wind_speed_field
    rw [h]

/-- Witness for C9: a record without a `velmedia` key maps that field to
`none` without error. -/
theorem field_mapper_round_trip_witness :
    List.lookup "velmedia" [("fecha", "2019-10-01")] = none ∧
    _process_wind_speed_field "velmedia" [("fecha", "2019-10-01")] =
      Except.ok none :=
  ⟨rfl, field_mapper_round_trip.2.1 [("fecha", "2019-10-01")] rfl⟩

theorem mapRecord_error_of_bad_fecha (sid : String) (r : DailyClimateData)
    (hbad : r.lookup "fecha" = none ∨
      ∃ v, r.lookup "fecha" = some v ∧ parseDate? v = none) :
    ∃ e0, mapRecord sid r = Except.error e0 := by
  rcases hbad with h | ⟨v, hv, hp⟩
  · refine ⟨WindError.keyError "fecha", ?_⟩
    unfold mapRecord
    rw [h]
  · refine ⟨WindError.valueError v, ?_⟩
    unfold mapRecord
    rw [hv]
    simp only [hp]

theorem mapRecords_error_of_mem (sid : String) (r : DailyClimateData)
    (e0 : WindError) (he : mapRecord sid r = Except.error e0) :
    ∀ l, r ∈ l → ∃ e, mapRecords sid l = Except.error e := by
  intro l
  induction l with
  | nil =>
    intro hr
    simp at hr
  | cons a l ih =>
    intro hr
    rcases List.mem_cons.mp hr with rfl | hr'
    · refine ⟨e0, ?_⟩
      unfold mapRecords
      rw [he]
    · cases ha : mapRecord sid a with
      | error e1 =>
        refine ⟨e1, ?_⟩
        unfold mapRecords
        rw [ha]
      | ok w =>
        obtain ⟨e, hee⟩ := ih hr'
        refine ⟨e, ?_⟩
        unfold mapRecords
        rw [ha, hee]

/-- C10: the field mapping is evaluated eagerly into a list, so whenever the
record list produced by the fetch contains one record whose required `fecha`
field is absent or unparseable, `get_daily_wind_speed_data` raises and no
observation at all is returned — the result is an error, not a partial list,
even if well-formed records precede the malformed one. -/
theorem eager_mapping_aborts_all
    (f : DailyClimateQuery → Except ClimateError (List DailyClimateData))
    (q : DailyClimateQuery) (records : List DailyClimateData)
    (r : DailyClimateData)
    (hok : (get_daily_climate_data f q).2 = Except.ok records)
    (hr : r ∈ records)
    (hbad : r.lookup "fecha" = none ∨
      ∃ v, r.lookup "fecha" = some v ∧ parseDate? v = none) :
    ∃ e, get_daily_wind_speed_data f q = Except.error e := by
  obtain ⟨e0, he0⟩ := mapRecord_error_of_bad_fecha q.station_id r hbad
  obtain ⟨e, he⟩ := mapRecords_error_of_mem q.station_id r e0 he0 records hr
  refine ⟨e, ?_⟩
  unfold get_daily_wind_speed_data
  rw [hok]
  exact he

/-- The one-month query decomposes to itself. -/
theorem smallQuery_single : _time_decompose_query smallQuery = [smallQuery] := by
  unfold _time_decompose_query
  rw [if_neg (not_lt.mpr ((years_le_iff smallQuery).mpr (by decide)))]

/-- A record with a measurement but no `fecha` field, a well-formed record
preceding it, and a fetch oracle that returns both. -/
def goodRecord : DailyClimateData := [("fecha", "2019-10-01"), ("velmedia", "3,6")]

def badRecord : DailyClimateData := [("velmedia", "3,6")]

def badFetch : DailyClimateQuery → Except ClimateError (List DailyClimateData) :=
  fun _ => Except.ok [goodRecord, badRecord]

theorem badFetch_eval :
    (get_daily_climate_data badFetch smallQuery).2 =
      Except.ok [goodRecord, badRecord] := by
  unfold get_daily_climate_data
  rw [smallQuery_single]
  rfl

/-- Witness for C10: the fetched list holds a well-formed record followed by
one without `fecha`, and the whole call errors. -/
theorem eager_mapping_aborts_all_witness :
    (get_daily_climate_data badFetch smallQuery).2 =
      Except.ok [goodRecord, badRecord] ∧
    badRecord ∈ [goodRecord, badRecord] ∧
    List.lookup "fecha" badRecord = none ∧
    ∃ e, get_daily_wind_speed_data badFetch smallQuery = Except.error e :=
  ⟨badFetch_eval, by simp, rfl,
   eager_mapping_aborts_all badFetch smallQuery [goodRecord, badRecord]
     badRecord badFetch_eval (by simp) (Or.inl rfl)⟩
